import Mathlib

/-
Verification of the multi-agent personal assistant orchestration
(`src/supervisor_agent`): a shallow embedding of the data model
(`agent_types.py`), the decision-step normalization and tool execution
activities (`activities.py`), and the two orchestration workflows
(`workflow.py`), with theorems about the spec's claims.

Python strings are modelled as lists of characters (`Str`); Python
`None`-able values as `Option`; the dict of tool arguments as an
association list.  The external collaborators — the LLM provider
response consumed by `llm_step_activity`, the tool functions reached by
`tool_activity`, and the company-research child workflow — are modelled
as oracles supplied to the orchestration definitions, so every theorem
quantifies over all of their possible behaviours.
-/

namespace SupervisorAgent

/-- Python `str`, modelled as a list of characters. -/
abbrev Str := List Char

/-- Shorthand for the character list of a Lean string literal. -/
def lit (s : String) : Str := s.data

/-- Python `text.strip()`: drop whitespace from both ends. -/
def pyStrip (s : Str) : Str :=
  ((s.dropWhile Char.isWhitespace).reverse.dropWhile Char.isWhitespace).reverse

/-- Python `text.rstrip()`: drop whitespace from the right end. -/
def pyRstrip (s : Str) : Str :=
  (s.reverse.dropWhile Char.isWhitespace).reverse

/-- Python `text.lower()` (ASCII case folding suffices for the markers). -/
def pyLower (s : Str) : Str := s.map Char.toLower

/-- Python `pat in s` for strings: `pat` occurs as a contiguous substring of `s`. -/
def containsSub (s pat : Str) : Bool :=
  match s with
  | [] => pat.isEmpty
  | _ :: t => pat.isPrefixOf s || containsSub t pat

/-- `activities._is_final_text`: the model text explicitly marks a final
answer — its stripped, lower-cased form starts with "final summary" or
"final answer". -/
def is_final_text (text : Str) : Bool :=
  let normalized := pyLower (pyStrip text)
  (lit "final summary").isPrefixOf normalized || (lit "final answer").isPrefixOf normalized

/-- `agent_types.ToolCall`: a model-requested tool invocation.  Argument
values are opaque to the orchestrator; the only reads performed on them
(in `_run_company_research_subagent`) treat them as strings, so they are
modelled as strings. -/
structure ToolCall where
  name : Str
  arguments : List (Str × Str)
deriving DecidableEq, Repr

/-- Python `args.get(key)` on the arguments dict: first binding, if any. -/
def getArg (args : List (Str × Str)) (key : Str) : Option Str :=
  (args.find? (fun p => p.1 = key)).map Prod.snd

/-- Python `a or b` over `str | None` operands: `None` and `""` are falsy. -/
def pyOrStr (a : Option Str) (b : Str) : Str :=
  match a with
  | none => b
  | some s => if s = [] then b else s

/-- `agent_types.AgentStepOutput`: normalized LLM step output
(`model_message` is an opaque log field, irrelevant to control flow,
and is omitted). -/
structure AgentStepOutput where
  is_final : Bool
  output_text : Option Str
  tool_call : Option ToolCall
deriving DecidableEq, Repr

/-- `agent_types.PersonalAssistantResult`. -/
structure PersonalAssistantResult where
  final_response : Str
  tool_calls : List ToolCall
  steps : Nat
deriving DecidableEq, Repr

/-- `agent_types.ChatMessage`. -/
structure ChatMessage where
  text : Str
deriving DecidableEq, Repr

/-- `agent_types.ChatResponse`. -/
structure ChatResponse where
  text : Str
  turn_index : Nat
deriving DecidableEq, Repr

/-! ## The decision-step normalization (`activities.llm_step_activity`)

The activity calls the configured provider and normalizes the raw
response into an `AgentStepOutput`.  The raw provider responses are
modelled by inductive types whose constructors are exactly the shapes
the normalization code distinguishes. -/

/-- The shapes of a Gemini `generate_content` response that
`llm_step_activity` distinguishes: no candidates / candidate without
content (`str(resp)` is returned), content without parts (`str(msg)`),
a first part carrying a function call, or a first part carrying text
(`None` text falls back to `str(part)`). -/
inductive GeminiResponse where
  | noCandidates (respStr : Str)
  | noParts (msgStr : Str)
  | funcCall (name : Str) (args : List (Str × Str))
  | textPart (text : Option Str) (partStr : Str)
deriving DecidableEq, Repr

/-- The Gemini branch of `activities.llm_step_activity`. -/
def llm_step_gemini : GeminiResponse → AgentStepOutput
  | .noCandidates respStr =>
      { is_final := false, output_text := some respStr, tool_call := none }
  | .noParts msgStr =>
      { is_final := false, output_text := some msgStr, tool_call := none }
  | .funcCall name args =>
      { is_final := false, output_text := none,
        tool_call := some { name := name, arguments := args } }
  | .textPart text partStr =>
      let txt := text.getD partStr
      { is_final := is_final_text txt, output_text := some txt, tool_call := none }

/-- The shapes of an OpenAI chat-completion message that
`llm_step_activity` distinguishes: a first tool call (its JSON arguments
already decoded; a decode failure yields `{}`), or plain content
(`None` content falls back to `""`). -/
inductive OpenAIResponse where
  | toolCalls (name : Str) (args : List (Str × Str))
  | text (content : Option Str)
deriving DecidableEq, Repr

/-- The OpenAI branch of `activities.llm_step_activity`. -/
def llm_step_openai : OpenAIResponse → AgentStepOutput
  | .toolCalls name args =>
      { is_final := false, output_text := none,
        tool_call := some { name := name, arguments := args } }
  | .text content =>
      let txt := content.getD []
      { is_final := is_final_text txt, output_text := some txt, tool_call := none }

/-! ## Tool execution (`activities.tool_activity`) -/

/-- Modelled from the spec: the tool registry `TOOL_DISPATCH` lives in
`src/resources/mytools`, which is not among the repository files under
`src/`; per §6 it is a "name → callable mapping" populated once at
startup, whose "lookup failure is a named error (`UnknownTool`)".  It
is modelled as an association list from tool names to string-valued
tool functions. -/
def ToolRegistry := List (Str × (List (Str × Str) → Str))

/-- Registry lookup, `TOOL_DISPATCH[name]` as a partial map. -/
def lookupTool (registry : ToolRegistry) (name : Str) :
    Option (List (Str × Str) → Str) :=
  (registry.find? (fun p => p.1 = name)).map Prod.snd

/-- The error raised by `TOOL_DISPATCH[tool_call.name]` when the name is
absent from the registry (a `KeyError` on the mapping; the spec names it
`UnknownTool`). -/
inductive ToolError where
  | unknownTool (name : Str)
deriving DecidableEq, Repr

/-- `activities.tool_activity`: look the tool up in the registry and
invoke it, returning its result as a string.  The lookup
`TOOL_DISPATCH[tool_call.name]` is unguarded — there is no `try/except`
in the activity — so an absent name is an error propagated out of the
activity, modelled by `Except.error`. -/
def tool_activity (registry : ToolRegistry) (tool_call : ToolCall) :
    Except ToolError Str :=
  match lookupTool registry tool_call.name with
  | none => .error (.unknownTool tool_call.name)
  | some tool_fn => .ok (tool_fn tool_call.arguments)

/-- The four tool names registered by `src/supervisor_agent/tools.py`
(`@tool` on `schedule_event`, `manage_email`, `get_weather`,
`company_research`).  The tool bodies are irrelevant to registry lookup
and are collapsed to a fixed placeholder result. -/
def demoRegistry : ToolRegistry :=
  [(lit "schedule_event", fun _ => []),
   (lit "manage_email", fun _ => []),
   (lit "get_weather", fun _ => []),
   (lit "company_research", fun _ => [])]

/-! ## Prompt history (`src/resources/myprompts` as used by `workflow.py`)

Only the append behaviour of `PromptHistory` is exercised by the
claims; an entry is its role together with its text. -/

/-- The role of a prompt-history entry (`SystemPrompt`, `TaskPrompt`,
`UserPrompt`, `ModelPrompt`). -/
inductive PromptRole where
  | system
  | task
  | user
  | model
deriving DecidableEq, Repr

/-- One entry of the `PromptHistory`. -/
structure PromptEntry where
  role : PromptRole
  text : Str
deriving DecidableEq, Repr

/-- The tool-result entry the workflows append after executing a tool:
a `UserPrompt` with text `[Tool {name} output]: {tool_response}`. -/
def toolResultEntry (name tool_response : Str) : PromptEntry :=
  { role := .user, text := lit "[Tool " ++ name ++ lit " output]: " ++ tool_response }

/-! ## Prompt constants of `workflow.py` -/

/-- `workflow.CALENDAR_AGENT_PROMPT`. -/
def CALENDAR_AGENT_PROMPT : Str :=
  lit "You are a calendar scheduling assistant. " ++
  lit "Parse natural language scheduling requests (e.g., 'next Tuesday at 2pm') " ++
  lit "into proper ISO datetime formats. " ++
  lit "Use get_available_time_slots to check availability when needed. " ++
  lit "Use create_calendar_event to schedule events. " ++
  lit "Always confirm what was scheduled in your final response."

/-- `workflow.EMAIL_AGENT_PROMPT`. -/
def EMAIL_AGENT_PROMPT : Str :=
  lit "You are an email assistant. " ++
  lit "Compose professional emails based on natural language requests. " ++
  lit "Extract recipient information and craft appropriate subject lines and body text. " ++
  lit "Use send_email to send the message. " ++
  lit "Always confirm what was sent in your final response."

/-- `workflow.WEATHER_AGENT_PROMPT`. -/
def WEATHER_AGENT_PROMPT : Str :=
  lit "You are a weather assistant. " ++
  lit "Given a location (and optionally units), call get_weather to " ++
  lit "retrieve current conditions and present them in a concise, " ++
  lit "user-friendly way."

/-- `workflow.SUPERVISOR_PROMPT` (an f-string interpolating the three
agent prompts). -/
def SUPERVISOR_PROMPT : Str :=
  lit "You are a helpful personal assistant coordinating multiple tools. " ++
  lit "Your objective is to maximize the user's utility while minimizing " ++
  lit "unnecessary or repeated tool calls.\n\n" ++
  lit "Available capabilities:\n\n" ++
  lit "Calendar agent capabilities:\n" ++
  CALENDAR_AGENT_PROMPT ++ lit "\n\n" ++
  lit "Email agent capabilities:\n" ++
  EMAIL_AGENT_PROMPT ++ lit "\n\n" ++
  lit "Weather agent capabilities:\n" ++
  WEATHER_AGENT_PROMPT ++ lit "\n\n" ++
  lit "You also have access to a long-running company research agent via " ++
  lit "the `company_research` tool, which can perform deep competitive " ++
  lit "analysis and return a structured report.\n\n" ++
  lit "Decision protocol (ReAct-style):\n" ++
  lit "1) For each user request, briefly reason about what you know and " ++
  lit "   what information is missing.\n" ++
  lit "2) Decide whether to CALL_TOOL (choose exactly one tool and " ++
  lit "   arguments) or RESPOND (produce the final summary).\n" ++
  lit "3) Prefer tools that are likely to be useful; avoid repeating the " ++
  lit "   same tool with the same arguments unless new information makes " ++
  lit "   earlier results invalid.\n\n" ++
  lit "Tool selection hints:\n" ++
  lit "- Use schedule_event only for explicit scheduling/changes to " ++
  lit "  meetings.\n" ++
  lit "- Use manage_email only when composing or sending an email.\n" ++
  lit "- Use get_weather only for current or near-term conditions at a " ++
  lit "  specific location.\n" ++
  lit "- Use company_research only when the user requests an in-depth " ++
  lit "  company or competitive analysis.\n\n" ++
  lit "Final response contract:\n" ++
  lit "- After you have finished using tools for this request, respond " ++
  lit "  with a single message that starts that interprets the results of " ++
  lit "  your actions taken and engages in the ongoing conversation. \n" ++
  lit "- Do not call more tools after you have produced the FINAL SUMMARY."

/-- The `TaskPrompt` text seeded by `PersonalAssistantWorkflow.run`. -/
def ASSISTANT_TASK_PROMPT : Str :=
  lit "The user may ask you to schedule meetings, send emails, " ++
  lit "look up information, or perform all of these in one " ++
  lit "request. Use tools conservatively and only when they " ++
  lit "are likely to improve the answer. Prefer re-using " ++
  lit "information you already have over repeating the same " ++
  lit "tool calls. When you have finished using tools and are " ++
  lit "ready to answer the user, respond with a single message " ++
  lit "that synthesizes your findings and engages the user in natural conversation."

/-- The `TaskPrompt` text seeded by `ChatPersonalAssistantWorkflow.run`. -/
def CHAT_TASK_PROMPT : Str :=
  lit "You are participating in an ongoing chat session. " ++
  lit "For each user message, decide whether to schedule " ++
  lit "events, send emails, look up information, or invoke " ++
  lit "the company research agent using tools. Keep each " ++
  lit "assistant reply concise and user-friendly. When you " ++
  lit "have finished using tools for a given user message " ++
  lit "and are ready to answer, respond with a single " ++
  lit "message that starts with 'FINAL SUMMARY:' followed " ++
  lit "by your final explanation for that turn."

/-! ## The company-research sub-agent delegation
(`workflow._run_company_research_subagent`) -/

/-- The outcome of the `AgentLoopWorkflow` child workflow as read by the
delegator: a dict from which only `markdown_report` is read (absent or
`None` collapses to the empty string, as `result.get("markdown_report")
or ""` does). -/
structure ResearchResult where
  markdown_report : Str
deriving DecidableEq, Repr

/-- Failure string returned when the delegation request carries no
company argument under any accepted alias. -/
def missingCompanyMsg : Str :=
  lit "company_research tool was called without a 'company' argument."

/-- Fixed string returned when the child workflow produced an empty
report. -/
def noReportMsg : Str :=
  lit "The company research agent completed without producing a " ++
  lit "report. No additional details are available."

/-- The company argument `_run_company_research_subagent` extracts:
Python `args.get("company") or args.get("company_name") or
args.get("query") or ""`. -/
def companyArgOf (args : List (Str × Str)) : Str :=
  pyOrStr (getArg args (lit "company"))
    (pyOrStr (getArg args (lit "company_name"))
      (pyOrStr (getArg args (lit "query")) []))

/-- The fixed header of a successful company-research summary. -/
def researchHeader : Str := lit "Company research report (markdown excerpt):\n\n"

/-- `workflow._run_company_research_subagent`: extract the company from
the aliased arguments, fail gracefully when it is missing, otherwise
run the child workflow (the oracle `research`) and bound its report to
2000 characters.  `max_chars = 2000`; an over-long report becomes
`markdown[: max_chars - 3].rstrip() + "..."`. -/
def run_company_research_subagent (research : Str → ResearchResult)
    (tool_call : ToolCall) : Str :=
  let company := companyArgOf tool_call.arguments
  if company = [] then
    missingCompanyMsg
  else
    let result := research company
    let markdown := pyStrip result.markdown_report
    if markdown = [] then
      noReportMsg
    else
      let max_chars : Nat := 2000
      let snippet :=
        if max_chars < markdown.length then
          pyRstrip (markdown.take (max_chars - 3)) ++ lit "..."
        else markdown
      researchHeader ++ snippet

/-! ## The single-shot orchestration loop (`PersonalAssistantWorkflow.run`)

The loop is driven by two oracles: `script`, giving the
`AgentStepOutput` the k-th `llm_step_activity` call returns, and
`Env.toolExec` / `Env.research`, giving the string result of each
`tool_activity` call and the child-workflow outcome.  The state mirrors
the workflow's fields and loop-local variables; `executorCalls` is a
ghost trace recording each actual `tool_activity` invocation (a
cache-hit on the weather guardrail and a `company_research` delegation
do not reach `tool_activity`). -/

/-- The external collaborators of the orchestration loops. -/
structure Env where
  toolExec : ToolCall → Str
  research : Str → ResearchResult

/-- A trivial environment (every tool returns the empty string, the
child workflow produces an empty report), used to instantiate theorems
at concrete inputs. -/
def trivialEnv : Env :=
  { toolExec := fun _ => [], research := fun _ => { markdown_report := [] } }

/-- A decision script that always returns an empty, non-final output
(no tool call, no text), used to instantiate theorems at concrete
inputs. -/
def silentScript : Nat → AgentStepOutput :=
  fun _ => { is_final := false, output_text := none, tool_call := none }

/-- A concrete weather tool call, used to instantiate theorems. -/
def weatherCall : ToolCall :=
  { name := lit "get_weather", arguments := [(lit "location", lit "Paris")] }

/-- A concrete successful weather tool response (it contains the
`"Current weather for"` marker), used to instantiate theorems. -/
def weatherText : Str :=
  lit "Current weather for Paris, France: approximately 20 degrees."

/-- An environment whose tool executor always returns the successful
weather response, used to instantiate theorems. -/
def weatherEnv : Env :=
  { toolExec := fun _ => weatherText,
    research := fun _ => { markdown_report := [] } }

/-- A decision script that always requests the weather tool, used to
instantiate theorems. -/
def weatherScript : Nat → AgentStepOutput :=
  fun _ => { is_final := false, output_text := none, tool_call := some weatherCall }

/-- State of `PersonalAssistantWorkflow.run`: the workflow fields
(`history`, `tool_calls`, `steps`) and the loop-local variables
(`last_text`, `tool_calls_this_request`, `last_weather_result`), plus
the ghost trace `executorCalls`. -/
structure AssistantState where
  history : List PromptEntry
  toolCalls : List ToolCall
  steps : Nat
  lastText : Str
  toolCallsThisRequest : Nat
  lastWeatherResult : Option Str
  executorCalls : List ToolCall
deriving DecidableEq, Repr

/-- The marker the cache-hit guardrail looks for in a weather tool
response (`"Current weather for" in tool_response`). -/
def weatherMarker : Str := lit "Current weather for"

/-- The synthesized circuit-breaker message (identical text in both
workflows). -/
def synthFinalSummary (last_weather_result : Str) : Str :=
  lit "FINAL SUMMARY: " ++ last_weather_result ++
  lit " I used the get_weather tool " ++
  lit "to retrieve these conditions and stopped calling " ++
  lit "tools once I had a reliable result."

/-- The fallback text when no assistant text was captured
(`last_text or "The assistant could not produce a response."`). -/
def noResponseMsg : Str := lit "The assistant could not produce a response."

/-- The `PersonalAssistantResult` built after the loop:
`final_message = last_text or "The assistant could not produce a
response."`. -/
def finishResult (st : AssistantState) : PersonalAssistantResult :=
  { final_response := if st.lastText = [] then noResponseMsg else st.lastText,
    tool_calls := st.toolCalls,
    steps := st.steps }

/-- How an iteration of the loop ended early: the model's explicit
final signal (`break`), or the tool-budget circuit breaker (`return`
in the single-shot loop, `break` in the chat loop). -/
inductive StepExit where
  | finalSignal
  | breaker
deriving DecidableEq, Repr

/-- Outcome of one iteration of the single-shot loop body. -/
inductive StepOut where
  | cont (st : AssistantState)
  | halt (st : AssistantState) (result : PersonalAssistantResult) (why : StepExit)
deriving Repr

/-- Executing a requested tool call, shared verbatim by both loops:
`company_research` is routed to the delegator; `get_weather` is served
from the cache when a previous successful result exists, and a fresh
successful result (one containing `"Current weather for"`) populates
the cache; every other name goes to `tool_activity` directly.  Returns
the tool response, the updated cache, and the updated ghost executor
trace. -/
def dispatchToolCall (env : Env) (tc : ToolCall)
    (last_weather_result : Option Str) (executorCalls : List ToolCall) :
    Str × Option Str × List ToolCall :=
  if tc.name = lit "company_research" then
    (run_company_research_subagent env.research tc, last_weather_result, executorCalls)
  else if tc.name = lit "get_weather" then
    match last_weather_result with
    | some w => (w, some w, executorCalls)
    | none =>
        let r := env.toolExec tc
        (r, if containsSub r weatherMarker then some r else none,
         executorCalls ++ [tc])
  else
    (env.toolExec tc, last_weather_result, executorCalls ++ [tc])

/-- One iteration of the `for step_index in range(max_steps)` body of
`PersonalAssistantWorkflow.run`, given the `AgentStepOutput` this
iteration's `llm_step_activity` call returned. -/
def assistantStep (env : Env) (result : AgentStepOutput) (st0 : AssistantState) :
    StepOut :=
  let st1 := { st0 with steps := st0.steps + 1 }
  match result.tool_call with
  | some tc =>
      let st2 := { st1 with
        toolCalls := st1.toolCalls ++ [tc],
        toolCallsThisRequest := st1.toolCallsThisRequest + 1 }
      let dispatched := dispatchToolCall env tc st2.lastWeatherResult st2.executorCalls
      let st3 := { st2 with
        history := st2.history ++ [toolResultEntry tc.name dispatched.1],
        lastWeatherResult := dispatched.2.1,
        executorCalls := dispatched.2.2 }
      if 3 ≤ st3.toolCallsThisRequest then
        match st3.lastWeatherResult with
        | some w =>
            .halt st3
              { final_response := synthFinalSummary w,
                tool_calls := st3.toolCalls,
                steps := st3.steps }
              .breaker
        | none => .cont st3
      else .cont st3
  | none =>
      match result.output_text with
      | some txt =>
          if txt = [] then .cont st1
          else
            let st2 := { st1 with
              lastText := txt,
              history := st1.history ++ [{ role := .model, text := txt }] }
            if result.is_final then .halt st2 (finishResult st2) .finalSignal
            else .cont st2
      | none => .cont st1

/-- Outcome of a whole single-shot run: the returned result, the final
loop state, and how the loop ended (`none` = step budget exhausted). -/
structure RunOutcome where
  result : PersonalAssistantResult
  final : AssistantState
  exit : Option StepExit
deriving Repr

/-- The bounded loop of `PersonalAssistantWorkflow.run`, driven by the
per-call decision script (call `k` of `llm_step_activity` returns
`script k`; at every loop entry `st.steps` is the number of completed
iterations). -/
def assistantLoop (env : Env) (script : Nat → AgentStepOutput) :
    Nat → AssistantState → RunOutcome
  | 0, st => { result := finishResult st, final := st, exit := none }
  | fuel + 1, st =>
      match assistantStep env (script st.steps) st with
      | .cont st' => assistantLoop env script fuel st'
      | .halt st' r why => { result := r, final := st', exit := some why }

/-- `max_steps = 100`, the single-shot safety limit. -/
def max_steps : Nat := 100

/-- The seeded state of `PersonalAssistantWorkflow.run`: system prompt
(stripped), task prompt, user query; counters at zero. -/
def initialAssistantState (query : Str) : AssistantState :=
  { history := [{ role := .system, text := pyStrip SUPERVISOR_PROMPT },
                { role := .task, text := ASSISTANT_TASK_PROMPT },
                { role := .user, text := query }],
    toolCalls := [],
    steps := 0,
    lastText := [],
    toolCallsThisRequest := 0,
    lastWeatherResult := none,
    executorCalls := [] }

/-- `PersonalAssistantWorkflow.run`, end to end. -/
def personalAssistantRun (env : Env) (script : Nat → AgentStepOutput)
    (query : Str) : RunOutcome :=
  assistantLoop env script max_steps (initialAssistantState query)

/-! ## The interactive chat loop (`ChatPersonalAssistantWorkflow.run`)

The per-turn loop mirrors the single-shot loop with two differences:
the step budget is `max_steps_per_turn = 8`, and the circuit breaker
sets `last_text` to the synthesized summary and breaks instead of
returning.  After the loop the turn publishes exactly one
`ChatResponse` (`final_text = last_text or "The assistant could not
produce a response."`). -/

/-- `agent_types.ChatSessionConfig`. -/
structure ChatSessionConfig where
  system_note : Option Str
deriving DecidableEq, Repr

/-- Per-turn loop state of `ChatPersonalAssistantWorkflow.run`: the
shared rolling `history` plus the turn-local variables (`last_text`,
`tool_calls_this_turn`, `last_weather_result`), the ghost iteration
count `stepsThisTurn` and the ghost executor trace. -/
structure ChatTurnState where
  history : List PromptEntry
  lastText : Str
  toolCallsThisTurn : Nat
  lastWeatherResult : Option Str
  stepsThisTurn : Nat
  executorCalls : List ToolCall
deriving DecidableEq, Repr

/-- Outcome of one iteration of the per-turn loop body. -/
inductive ChatStepOut where
  | cont (st : ChatTurnState)
  | halt (st : ChatTurnState) (why : StepExit)
deriving Repr

/-- One iteration of the `for _ in range(max_steps_per_turn)` body of
`ChatPersonalAssistantWorkflow.run`, given this iteration's
`llm_step_activity` output. -/
def chatTurnStep (env : Env) (result : AgentStepOutput) (st0 : ChatTurnState) :
    ChatStepOut :=
  let st1 := { st0 with stepsThisTurn := st0.stepsThisTurn + 1 }
  match result.tool_call with
  | some tc =>
      let st2 := { st1 with toolCallsThisTurn := st1.toolCallsThisTurn + 1 }
      let dispatched := dispatchToolCall env tc st2.lastWeatherResult st2.executorCalls
      let st3 := { st2 with
        history := st2.history ++ [toolResultEntry tc.name dispatched.1],
        lastWeatherResult := dispatched.2.1,
        executorCalls := dispatched.2.2 }
      if 3 ≤ st3.toolCallsThisTurn then
        match st3.lastWeatherResult with
        | some w => .halt { st3 with lastText := synthFinalSummary w } .breaker
        | none => .cont st3
      else .cont st3
  | none =>
      match result.output_text with
      | some txt =>
          if txt = [] then .cont st1
          else
            let st2 := { st1 with
              lastText := txt,
              history := st1.history ++ [{ role := .model, text := txt }] }
            if result.is_final then .halt st2 .finalSignal
            else .cont st2
      | none => .cont st1

/-- The bounded per-turn loop, driven by the turn's decision script
(`st.stepsThisTurn` counts this turn's completed iterations and indexes
the script).  Returns the final turn state and how the loop ended
(`none` = per-turn budget exhausted). -/
def chatTurnLoop (env : Env) (script : Nat → AgentStepOutput) :
    Nat → ChatTurnState → ChatTurnState × Option StepExit
  | 0, st => (st, none)
  | fuel + 1, st =>
      match chatTurnStep env (script st.stepsThisTurn) st with
      | .cont st' => chatTurnLoop env script fuel st'
      | .halt st' why => (st', some why)

/-- `max_steps_per_turn = 8`, the per-turn chat budget. -/
def max_steps_per_turn : Nat := 8

/-- The state a chat turn starts from: the rolling history extended
with the dequeued user message, turn-local variables reset. -/
def initialChatTurnState (history : List PromptEntry) (message : Str) :
    ChatTurnState :=
  { history := history ++ [{ role := .user, text := message }],
    lastText := [],
    toolCallsThisTurn := 0,
    lastWeatherResult := none,
    stepsThisTurn := 0,
    executorCalls := [] }

/-- One full chat turn: dequeue a message, run the per-turn loop to
completion.  Returns the final turn state and exit kind. -/
def runChatTurn (env : Env) (script : Nat → AgentStepOutput)
    (history : List PromptEntry) (message : Str) :
    ChatTurnState × Option StepExit :=
  chatTurnLoop env script max_steps_per_turn (initialChatTurnState history message)

/-- The text the turn publishes: `last_text or "The assistant could
not produce a response."`. -/
def chatTurnFinalText (st : ChatTurnState) : Str :=
  if st.lastText = [] then noResponseMsg else st.lastText

/-- The history `ChatPersonalAssistantWorkflow.run` seeds before the
session loop: supervisor system prompt (stripped), chat task prompt,
and the optional `config.system_note`. -/
def initialChatHistory (config : ChatSessionConfig) : List PromptEntry :=
  [{ role := .system, text := pyStrip SUPERVISOR_PROMPT },
   { role := .task, text := CHAT_TASK_PROMPT }] ++
  (match config.system_note with
   | some note => [{ role := .system, text := note }]
   | none => [])

/-- The session loop of `ChatPersonalAssistantWorkflow.run`, run over a
queue of pending messages with no `close` signal: pop the first pending
message (`pop(0)`), increment `_turn_index`, run the per-turn loop on
the rolling history, and publish exactly one `_latest_response` update
before turning to the next pending message.  `scripts t` is the
decision script of turn `t`.  Returns the successive values of
`_latest_response`, in publication order. -/
def chatSessionUpdates (env : Env) (scripts : Nat → Nat → AgentStepOutput) :
    List ChatMessage → List PromptEntry → Nat → List ChatResponse
  | [], _, _ => []
  | message :: pending, history, turn_index =>
      let t := turn_index + 1
      let turn := runChatTurn env (scripts t) history message.text
      let response : ChatResponse := { text := chatTurnFinalText turn.1, turn_index := t }
      response :: chatSessionUpdates env scripts pending turn.1.history t

/-- A whole no-close chat session over the given submitted messages:
the `_latest_response` updates it publishes, in order. -/
def chatPersonalAssistantSession (env : Env) (scripts : Nat → Nat → AgentStepOutput)
    (config : ChatSessionConfig) (messages : List ChatMessage) : List ChatResponse :=
  chatSessionUpdates env scripts messages (initialChatHistory config) 0

/-! ## Auxiliary projections and predicates used by the theorems -/

/-- The loop state an iteration leaves behind, whether it continues or
halts. -/
def StepOut.state : StepOut → AssistantState
  | .cont st => st
  | .halt st _ _ => st

/-- The loop state a chat iteration leaves behind. -/
def ChatStepOut.state : ChatStepOut → ChatTurnState
  | .cont st => st
  | .halt st _ => st

/-- Whether a decision output is an explicit final text answer as the
loops read one: no tool call, non-empty `output_text`, `is_final`
set.  Exactly these outputs make an iteration `break` with the final
signal. -/
def isFinalTextStep (out : AgentStepOutput) : Bool :=
  out.tool_call = none && out.is_final && !(out.output_text.getD [] = [])

/-! # Theorems -/

/-- C10: every `AgentStepOutput` produced by the decision-step
normalization of `llm_step_activity` (either provider branch)
satisfies: whenever `tool_call` is present, `is_final` is false and
`output_text` is absent; and `is_final` is true only when `output_text`
is present and its stripped text starts, case-insensitively, with
"final summary" or "final answer" (a lenient prefix match, no colon
required). -/
theorem C10_llm_step_normalization_invariant (g : GeminiResponse) (o : OpenAIResponse) :
    ((llm_step_gemini g).tool_call ≠ none →
      (llm_step_gemini g).is_final = false ∧ (llm_step_gemini g).output_text = none) ∧
    ((llm_step_gemini g).is_final = true →
      ∃ t, (llm_step_gemini g).output_text = some t ∧
        ((lit "final summary").isPrefixOf (pyLower (pyStrip t)) = true ∨
         (lit "final answer").isPrefixOf (pyLower (pyStrip t)) = true)) ∧
    ((llm_step_openai o).tool_call ≠ none →
      (llm_step_openai o).is_final = false ∧ (llm_step_openai o).output_text = none) ∧
    ((llm_step_openai o).is_final = true →
      ∃ t, (llm_step_openai o).output_text = some t ∧
        ((lit "final summary").isPrefixOf (pyLower (pyStrip t)) = true ∨
         (lit "final answer").isPrefixOf (pyLower (pyStrip t)) = true)) := by
  refine ⟨?_, ?_, ?_, ?_⟩
  · cases g <;> simp [llm_step_gemini]
  · cases g <;> simp [llm_step_gemini, is_final_text]
  · cases o <;> simp [llm_step_openai]
  · cases o <;> simp [llm_step_openai, is_final_text]

/-- C7: the text a completed company-research delegation folds back
into the parent history is the fixed "no report produced" string when
the child's markdown report strips to empty; otherwise the fixed
excerpt header followed by the report, where a report longer than 2000
characters is truncated to `markdown[:1997].rstrip() + "..."` — at most
2000 characters, ending in the ellipsis marker.  A request lacking a
company argument under all accepted aliases (`company`, `company_name`,
`query`) yields the descriptive failure string, not an exception. -/
theorem C7_subagent_summary_bounded (research : Str → ResearchResult) (tc : ToolCall) :
    (companyArgOf tc.arguments = [] →
      run_company_research_subagent research tc = missingCompanyMsg) ∧
    (companyArgOf tc.arguments ≠ [] →
      (pyStrip (research (companyArgOf tc.arguments)).markdown_report = [] →
        run_company_research_subagent research tc = noReportMsg) ∧
      (∀ markdown, pyStrip (research (companyArgOf tc.arguments)).markdown_report = markdown →
        markdown ≠ [] →
        (markdown.length ≤ 2000 →
          run_company_research_subagent research tc = researchHeader ++ markdown) ∧
        (2000 < markdown.length →
          run_company_research_subagent research tc =
            researchHeader ++ (pyRstrip (markdown.take 1997) ++ lit "...") ∧
          (pyRstrip (markdown.take 1997) ++ lit "...").length ≤ 2000 ∧
          lit "..." <:+ pyRstrip (markdown.take 1997) ++ lit "..."))) := by
  constructor
  · intro h
    simp [run_company_research_subagent, h]
  · intro hc
    constructor
    · intro h
      simp [run_company_research_subagent, hc, h]
    · intro markdown hmd hne
      constructor
      · intro hlen
        have : ¬ (2000 < markdown.length) := by omega
        simp [run_company_research_subagent, hc, hmd, hne, this]
      · intro hlen
        have hts : (pyRstrip (markdown.take 1997)).length ≤ 1997 := by
          have h1 : (pyRstrip (markdown.take 1997)).length ≤ (markdown.take 1997).length := by
            unfold pyRstrip
            calc ((markdown.take 1997).reverse.dropWhile Char.isWhitespace).reverse.length
                = ((markdown.take 1997).reverse.dropWhile Char.isWhitespace).length := by
                  simp
              _ ≤ (markdown.take 1997).reverse.length :=
                  (List.dropWhile_suffix _).length_le
              _ = (markdown.take 1997).length := by simp
          have h2 : (markdown.take 1997).length ≤ 1997 := by
            simp [List.length_take]
          omega
        refine ⟨?_, ?_, List.suffix_append _ _⟩
        · simp [run_company_research_subagent, hc, hmd, hne, hlen]
        · have h3 : (lit "...").length = 3 := by decide
          simp only [List.length_append, h3]
          omega

/-- The amended C3: for every `ToolCall` whose name is absent from the
tool registry, `tool_activity` fails with the `UnknownTool` lookup
error, which propagates out of the activity uncaught — the activity has
no handler that would convert the failure into a tool-result string, so
the orchestration loop never receives it as tool-result text. -/
theorem C3_unknown_tool_uncaught (registry : ToolRegistry) (call : ToolCall)
    (h : lookupTool registry call.name = none) :
    tool_activity registry call = .error (.unknownTool call.name) := by
  simp [tool_activity, h]

/-- Witness for the amended C3 at the demo registry and an unregistered
name. -/
theorem C3_unknown_tool_uncaught_witness :
    tool_activity demoRegistry { name := lit "nonexistent_tool", arguments := [] } =
      .error (.unknownTool (lit "nonexistent_tool")) :=
  C3_unknown_tool_uncaught demoRegistry { name := lit "nonexistent_tool", arguments := [] } rfl

/-- Counterexample to C3 as stated: with the four tools of
`tools.py` registered, a `ToolCall` named `nonexistent_tool` makes
`tool_activity` fail with the `UnknownTool` error — the failure is not
returned as a tool-result string (there is no `Except.ok` result), so
it reaches the loop as an uncaught activity error, not as text the
loop continues past. -/
theorem C3_counterexample :
    tool_activity demoRegistry { name := lit "nonexistent_tool", arguments := [] } =
      Except.error (ToolError.unknownTool (lit "nonexistent_tool")) ∧
    ∀ s : Str, tool_activity demoRegistry { name := lit "nonexistent_tool", arguments := [] } ≠
      Except.ok s := by
  constructor
  · rfl
  · intro s hs
    rw [show tool_activity demoRegistry { name := lit "nonexistent_tool", arguments := [] } =
          Except.error (ToolError.unknownTool (lit "nonexistent_tool")) from rfl] at hs
    exact Except.noConfusion hs

/-! ## Helper lemmas about single loop iterations -/

/-- A continuing single-shot iteration advances `steps` by exactly one. -/
theorem assistantStep_cont_steps {env : Env} {r : AgentStepOutput} {st st' : AssistantState}
    (h : assistantStep env r st = .cont st') : st'.steps = st.steps + 1 := by
  simp only [assistantStep] at h
  repeat' split at h
  all_goals cases h
  all_goals rfl

/-- A halting single-shot iteration advances `steps` by exactly one,
in both the final state and the returned result. -/
theorem assistantStep_halt_steps {env : Env} {r : AgentStepOutput} {st st' : AssistantState}
    {res : PersonalAssistantResult} {why : StepExit}
    (h : assistantStep env r st = .halt st' res why) :
    st'.steps = st.steps + 1 ∧ res.steps = st.steps + 1 := by
  simp only [assistantStep] at h
  repeat' split at h
  all_goals cases h
  all_goals exact ⟨rfl, rfl⟩

/-- Only an explicit final text output makes a single-shot iteration
halt with the final signal, and then the result is `finishResult` of a
state whose `lastText` is that output verbatim. -/
theorem assistantStep_finalSignal {env : Env} {r : AgentStepOutput} {st st' : AssistantState}
    {res : PersonalAssistantResult}
    (h : assistantStep env r st = .halt st' res .finalSignal) :
    isFinalTextStep r = true ∧ res = finishResult st' ∧
      ∃ t, r.output_text = some t ∧ t ≠ [] ∧ st'.lastText = t := by
  simp only [assistantStep] at h
  repeat' split at h
  all_goals cases h
  all_goals simp_all [isFinalTextStep]

/-- A continuing single-shot iteration either leaves `last_text`
unchanged or sets it to the model's own `output_text` verbatim. -/
theorem assistantStep_cont_lastText {env : Env} {r : AgentStepOutput} {st st' : AssistantState}
    (h : assistantStep env r st = .cont st') :
    st'.lastText = st.lastText ∨ r.output_text = some st'.lastText := by
  simp only [assistantStep] at h
  repeat' split at h
  all_goals cases h
  all_goals simp_all

/-- Once the weather cache holds a result, every single-shot iteration
preserves it and never invokes the tool executor on `get_weather`
again. -/
theorem assistantStep_cache_preserved {env : Env} {r : AgentStepOutput}
    {st : AssistantState} {w : Str} (hw : st.lastWeatherResult = some w) :
    (assistantStep env r st).state.lastWeatherResult = some w ∧
    ∃ new, (assistantStep env r st).state.executorCalls = st.executorCalls ++ new ∧
      ∀ c ∈ new, c.name ≠ lit "get_weather" := by
  rcases r with ⟨fin, ot, tcall⟩
  cases tcall with
  | none =>
      cases ot with
      | none =>
          exact ⟨by simp [assistantStep, StepOut.state, hw],
                 [], by simp [assistantStep, StepOut.state], by simp⟩
      | some txt =>
          by_cases ht : txt = [] <;> cases fin <;>
            exact ⟨by simp [assistantStep, StepOut.state, hw, ht],
                   [], by simp [assistantStep, StepOut.state, ht], by simp⟩
  | some tc =>
      have hne : lit "get_weather" ≠ lit "company_research" := by decide
      by_cases hcr : tc.name = lit "company_research"
      · by_cases hb : 3 ≤ st.toolCallsThisRequest + 1 <;>
          exact ⟨by simp [assistantStep, dispatchToolCall, StepOut.state, hw, hcr, hb],
                 [], by simp [assistantStep, dispatchToolCall, StepOut.state, hw, hcr, hb],
                 by simp⟩
      · by_cases hgw : tc.name = lit "get_weather"
        · by_cases hb : 3 ≤ st.toolCallsThisRequest + 1 <;>
            exact ⟨by simp [assistantStep, dispatchToolCall, StepOut.state, hw, hcr, hgw, hb, hne],
                   [], by simp [assistantStep, dispatchToolCall, StepOut.state, hw, hcr, hgw, hb, hne],
                   by simp⟩
        · by_cases hb : 3 ≤ st.toolCallsThisRequest + 1 <;>
            exact ⟨by simp [assistantStep, dispatchToolCall, StepOut.state, hw, hcr, hgw, hb],
                   [tc], by simp [assistantStep, dispatchToolCall, StepOut.state, hw, hcr, hgw, hb],
                   by simp [hgw]⟩

/-- Chat-loop analog of `assistantStep_cont_steps`. -/
theorem chatTurnStep_cont_steps {env : Env} {r : AgentStepOutput} {st st' : ChatTurnState}
    (h : chatTurnStep env r st = .cont st') : st'.stepsThisTurn = st.stepsThisTurn + 1 := by
  simp only [chatTurnStep] at h
  repeat' split at h
  all_goals cases h
  all_goals rfl

/-- Chat-loop analog of `assistantStep_halt_steps`. -/
theorem chatTurnStep_halt_steps {env : Env} {r : AgentStepOutput} {st st' : ChatTurnState}
    {why : StepExit}
    (h : chatTurnStep env r st = .halt st' why) :
    st'.stepsThisTurn = st.stepsThisTurn + 1 := by
  simp only [chatTurnStep] at h
  repeat' split at h
  all_goals cases h
  all_goals rfl

/-- Chat-loop analog of `assistantStep_finalSignal`. -/
theorem chatTurnStep_finalSignal {env : Env} {r : AgentStepOutput} {st st' : ChatTurnState}
    (h : chatTurnStep env r st = .halt st' .finalSignal) :
    isFinalTextStep r = true ∧ ∃ t, r.output_text = some t ∧ t ≠ [] ∧ st'.lastText = t := by
  simp only [chatTurnStep] at h
  repeat' split at h
  all_goals cases h
  all_goals simp_all [isFinalTextStep]

/-- Chat-loop analog of `assistantStep_cont_lastText`. -/
theorem chatTurnStep_cont_lastText {env : Env} {r : AgentStepOutput} {st st' : ChatTurnState}
    (h : chatTurnStep env r st = .cont st') :
    st'.lastText = st.lastText ∨ r.output_text = some st'.lastText := by
  simp only [chatTurnStep] at h
  repeat' split at h
  all_goals cases h
  all_goals simp_all

/-- Chat-loop analog of `assistantStep_cache_preserved`. -/
theorem chatTurnStep_cache_preserved {env : Env} {r : AgentStepOutput}
    {st : ChatTurnState} {w : Str} (hw : st.lastWeatherResult = some w) :
    (chatTurnStep env r st).state.lastWeatherResult = some w ∧
    ∃ new, (chatTurnStep env r st).state.executorCalls = st.executorCalls ++ new ∧
      ∀ c ∈ new, c.name ≠ lit "get_weather" := by
  rcases r with ⟨fin, ot, tcall⟩
  cases tcall with
  | none =>
      cases ot with
      | none =>
          exact ⟨by simp [chatTurnStep, ChatStepOut.state, hw],
                 [], by simp [chatTurnStep, ChatStepOut.state], by simp⟩
      | some txt =>
          by_cases ht : txt = [] <;> cases fin <;>
            exact ⟨by simp [chatTurnStep, ChatStepOut.state, hw, ht],
                   [], by simp [chatTurnStep, ChatStepOut.state, ht], by simp⟩
  | some tc =>
      have hne : lit "get_weather" ≠ lit "company_research" := by decide
      by_cases hcr : tc.name = lit "company_research"
      · by_cases hb : 3 ≤ st.toolCallsThisTurn + 1 <;>
          exact ⟨by simp [chatTurnStep, dispatchToolCall, ChatStepOut.state, hw, hcr, hb],
                 [], by simp [chatTurnStep, dispatchToolCall, ChatStepOut.state, hw, hcr, hb],
                 by simp⟩
      · by_cases hgw : tc.name = lit "get_weather"
        · by_cases hb : 3 ≤ st.toolCallsThisTurn + 1 <;>
            exact ⟨by simp [chatTurnStep, dispatchToolCall, ChatStepOut.state, hw, hcr, hgw, hb, hne],
                   [], by simp [chatTurnStep, dispatchToolCall, ChatStepOut.state, hw, hcr, hgw, hb, hne],
                   by simp⟩
        · by_cases hb : 3 ≤ st.toolCallsThisTurn + 1 <;>
            exact ⟨by simp [chatTurnStep, dispatchToolCall, ChatStepOut.state, hw, hcr, hgw, hb],
                   [tc], by simp [chatTurnStep, dispatchToolCall, ChatStepOut.state, hw, hcr, hgw, hb],
                   by simp [hgw]⟩

/-! ## Loop-level lemmas -/

/-- The single-shot loop advances `steps` by one per iteration and so
never exceeds its starting count plus its fuel. -/
theorem assistantLoop_steps_le (env : Env) (script : Nat → AgentStepOutput) :
    ∀ (fuel : Nat) (st : AssistantState),
      (assistantLoop env script fuel st).result.steps ≤ st.steps + fuel := by
  intro fuel
  induction fuel with
  | zero => intro st; simp [assistantLoop, finishResult]
  | succ n ih =>
      intro st
      cases h : assistantStep env (script st.steps) st with
      | cont st' =>
          have hs := assistantStep_cont_steps h
          have hr := ih st'
          simp only [assistantLoop, h]
          omega
      | halt st' res why =>
          have hs := (assistantStep_halt_steps h).2
          simp only [assistantLoop, h]
          omega

/-- The chat per-turn loop advances its iteration count by one per
iteration and never exceeds its starting count plus its fuel. -/
theorem chatTurnLoop_steps_le (env : Env) (script : Nat → AgentStepOutput) :
    ∀ (fuel : Nat) (st : ChatTurnState),
      (chatTurnLoop env script fuel st).1.stepsThisTurn ≤ st.stepsThisTurn + fuel := by
  intro fuel
  induction fuel with
  | zero => intro st; simp [chatTurnLoop]
  | succ n ih =>
      intro st
      cases h : chatTurnStep env (script st.stepsThisTurn) st with
      | cont st' =>
          have hs := chatTurnStep_cont_steps h
          have hr := ih st'
          simp only [chatTurnLoop, h]
          omega
      | halt st' why =>
          have hs := chatTurnStep_halt_steps h
          simp only [chatTurnLoop, h]
          omega

/-- The amended C2: for every run of the orchestration loops, the
number of loop iterations never exceeds the configured step budget —
and that budget is `max_steps = 100` for the single-shot loop (not 30)
and `max_steps_per_turn = 8` for each chat turn. -/
theorem C2_step_budget_invariant (env₁ env₂ : Env)
    (script₁ script₂ : Nat → AgentStepOutput) (query : Str)
    (history : List PromptEntry) (message : Str) :
    (personalAssistantRun env₁ script₁ query).result.steps ≤ max_steps ∧
    max_steps = 100 ∧
    (runChatTurn env₂ script₂ history message).1.stepsThisTurn ≤ max_steps_per_turn ∧
    max_steps_per_turn = 8 := by
  refine ⟨?_, rfl, ?_, rfl⟩
  · have h := assistantLoop_steps_le env₁ script₁ max_steps (initialAssistantState query)
    simpa [personalAssistantRun, initialAssistantState] using h
  · have h := chatTurnLoop_steps_le env₂ script₂ max_steps_per_turn
      (initialChatTurnState history message)
    simpa [runChatTurn, initialChatTurnState] using h

set_option maxRecDepth 10000 in
/-- Counterexample to C2 as stated: the single-shot budget is not 30 —
with a decision script that never finalizes, the single-shot loop runs
100 iterations, exceeding the claimed budget of 30. -/
theorem C2_counterexample :
    30 < (personalAssistantRun trivialEnv
      (fun _ => { is_final := false, output_text := some (lit "thinking"), tool_call := none })
      (lit "What is the weather in Paris?")).result.steps := by
  decide

/-- The amended C1: if the decision operation returns
`is_final = true` with non-empty `output_text` (and no tool call), the
loop terminates that turn with the final signal, and the result
returned to the caller (`final_response` / the turn's published text)
equals `output_text` verbatim — the final-answer marker is NOT
stripped by either workflow (the CLI strips it for display only). -/
theorem C1_final_text_returned_verbatim (env₁ env₂ : Env)
    (script₁ script₂ : Nat → AgentStepOutput) (fuel₁ fuel₂ : Nat)
    (st : AssistantState) (stc : ChatTurnState) (t : Str) (ht : t ≠ [])
    (h₁ : script₁ st.steps = { is_final := true, output_text := some t, tool_call := none })
    (h₂ : script₂ stc.stepsThisTurn =
      { is_final := true, output_text := some t, tool_call := none }) :
    ((assistantLoop env₁ script₁ (fuel₁ + 1) st).exit = some .finalSignal ∧
     (assistantLoop env₁ script₁ (fuel₁ + 1) st).result.final_response = t) ∧
    ((chatTurnLoop env₂ script₂ (fuel₂ + 1) stc).2 = some .finalSignal ∧
     chatTurnFinalText (chatTurnLoop env₂ script₂ (fuel₂ + 1) stc).1 = t) := by
  constructor
  · constructor <;>
      simp [assistantLoop, h₁, assistantStep, finishResult, ht]
  · constructor <;>
      simp [chatTurnLoop, h₂, chatTurnStep, chatTurnFinalText, ht]

/-- Witness for the amended C1 at a concrete final answer. -/
theorem C1_final_text_returned_verbatim_witness :
    ((assistantLoop trivialEnv
        (fun _ => { is_final := true,
                    output_text := some (lit "FINAL SUMMARY: done"), tool_call := none })
        (99 + 1) (initialAssistantState (lit "hi"))).result.final_response =
      lit "FINAL SUMMARY: done") :=
  ((C1_final_text_returned_verbatim trivialEnv trivialEnv
      (fun _ => { is_final := true,
                  output_text := some (lit "FINAL SUMMARY: done"), tool_call := none })
      (fun _ => { is_final := true,
                  output_text := some (lit "FINAL SUMMARY: done"), tool_call := none })
      99 7 (initialAssistantState (lit "hi"))
      (initialChatTurnState [] (lit "hi")) (lit "FINAL SUMMARY: done")
      (by decide) rfl rfl).1).2

/-- Counterexample to C1 as stated: a decision output with
`is_final = true` and `output_text = "FINAL SUMMARY: done"` makes the
single-shot workflow return exactly `"FINAL SUMMARY: done"` — the
final-answer marker is still a prefix of the returned result, so the
marker was not stripped (a stripped result would have been `"done"`). -/
theorem C1_counterexample :
    (personalAssistantRun trivialEnv
      (fun _ => { is_final := true,
                  output_text := some (lit "FINAL SUMMARY: done"), tool_call := none })
      (lit "hi")).result.final_response = lit "FINAL SUMMARY: done" ∧
    (lit "FINAL SUMMARY: ").isPrefixOf
      ((personalAssistantRun trivialEnv
        (fun _ => { is_final := true,
                    output_text := some (lit "FINAL SUMMARY: done"), tool_call := none })
        (lit "hi")).result.final_response) = true ∧
    lit "FINAL SUMMARY: done" ≠ lit "done" := by
  refine ⟨by decide, by decide, by decide⟩

/-- If no decision output is an explicit final text, the single-shot
loop never exits with the final signal: it either trips the circuit
breaker or exhausts its budget, and on exhaustion the result is
`finishResult` of the final state, whose `last_text` is the initial one
or some decision output's text verbatim. -/
theorem assistantLoop_no_final (env : Env) (script : Nat → AgentStepOutput)
    (hs : ∀ k, isFinalTextStep (script k) = false) :
    ∀ (fuel : Nat) (st : AssistantState),
      (assistantLoop env script fuel st).exit = some .breaker ∨
      ((assistantLoop env script fuel st).exit = none ∧
       (assistantLoop env script fuel st).result =
         finishResult (assistantLoop env script fuel st).final ∧
       ((assistantLoop env script fuel st).final.lastText = st.lastText ∨
        ∃ k, (script k).output_text =
          some ((assistantLoop env script fuel st).final.lastText))) := by
  intro fuel
  induction fuel with
  | zero =>
      intro st
      exact Or.inr ⟨rfl, rfl, Or.inl rfl⟩
  | succ n ih =>
      intro st
      cases h : assistantStep env (script st.steps) st with
      | cont st' =>
          simp only [assistantLoop, h]
          rcases ih st' with hb | ⟨he, hr, hl⟩
          · exact Or.inl hb
          · refine Or.inr ⟨he, hr, ?_⟩
            rcases hl with hl | hl
            · rcases assistantStep_cont_lastText h with h2 | h2
              · exact Or.inl (hl.trans h2)
              · exact Or.inr ⟨st.steps, by rw [hl]; exact h2⟩
            · exact Or.inr hl
      | halt st' res why =>
          cases why with
          | finalSignal =>
              have hf := (assistantStep_finalSignal h).1
              rw [hs st.steps] at hf
              exact absurd hf (by simp)
          | breaker =>
              simp only [assistantLoop, h]
              exact Or.inl trivial

/-- Chat analog of `assistantLoop_no_final`. -/
theorem chatTurnLoop_no_final (env : Env) (script : Nat → AgentStepOutput)
    (hs : ∀ k, isFinalTextStep (script k) = false) :
    ∀ (fuel : Nat) (st : ChatTurnState),
      (chatTurnLoop env script fuel st).2 = some .breaker ∨
      ((chatTurnLoop env script fuel st).2 = none ∧
       ((chatTurnLoop env script fuel st).1.lastText = st.lastText ∨
        ∃ k, (script k).output_text =
          some ((chatTurnLoop env script fuel st).1.lastText))) := by
  intro fuel
  induction fuel with
  | zero =>
      intro st
      exact Or.inr ⟨rfl, Or.inl rfl⟩
  | succ n ih =>
      intro st
      cases h : chatTurnStep env (script st.stepsThisTurn) st with
      | cont st' =>
          simp only [chatTurnLoop, h]
          rcases ih st' with hb | ⟨he, hl⟩
          · exact Or.inl hb
          · refine Or.inr ⟨he, ?_⟩
            rcases hl with hl | hl
            · rcases chatTurnStep_cont_lastText h with h2 | h2
              · exact Or.inl (hl.trans h2)
              · exact Or.inr ⟨st.stepsThisTurn, by rw [hl]; exact h2⟩
            · exact Or.inr hl
      | halt st' why =>
          cases why with
          | finalSignal =>
              have hf := (chatTurnStep_finalSignal h).1
              rw [hs st.stepsThisTurn] at hf
              exact absurd hf (by simp)
          | breaker =>
              simp only [chatTurnLoop, h]
              exact Or.inl trivial

/-- The amended C4: in a turn where no decision output is an explicit
final text before the step budget is exhausted, and the tool-budget
circuit breaker does not fire, the turn's result equals the last
captured assistant `output_text` verbatim, or the fixed fallback
string "The assistant could not produce a response." (not an empty
result) if no assistant text was ever produced — and, the loops being
total, no error is thrown to the caller. -/
theorem C4_budget_exhaustion_fallback (env₁ env₂ : Env)
    (script₁ script₂ : Nat → AgentStepOutput) (query : Str)
    (history : List PromptEntry) (message : Str)
    (hs₁ : ∀ k, isFinalTextStep (script₁ k) = false)
    (hs₂ : ∀ k, isFinalTextStep (script₂ k) = false) :
    ((personalAssistantRun env₁ script₁ query).exit = some .breaker ∨
     ((personalAssistantRun env₁ script₁ query).exit = none ∧
      (personalAssistantRun env₁ script₁ query).result.final_response =
        (if (personalAssistantRun env₁ script₁ query).final.lastText = []
         then noResponseMsg
         else (personalAssistantRun env₁ script₁ query).final.lastText) ∧
      ((personalAssistantRun env₁ script₁ query).final.lastText = [] ∨
       ∃ k, (script₁ k).output_text =
         some ((personalAssistantRun env₁ script₁ query).final.lastText)))) ∧
    ((runChatTurn env₂ script₂ history message).2 = some .breaker ∨
     ((runChatTurn env₂ script₂ history message).2 = none ∧
      chatTurnFinalText (runChatTurn env₂ script₂ history message).1 =
        (if (runChatTurn env₂ script₂ history message).1.lastText = []
         then noResponseMsg
         else (runChatTurn env₂ script₂ history message).1.lastText) ∧
      ((runChatTurn env₂ script₂ history message).1.lastText = [] ∨
       ∃ k, (script₂ k).output_text =
         some ((runChatTurn env₂ script₂ history message).1.lastText)))) := by
  constructor
  · rcases assistantLoop_no_final env₁ script₁ hs₁ max_steps (initialAssistantState query)
      with hb | ⟨he, hr, hl⟩
    · exact Or.inl hb
    · refine Or.inr ⟨he, ?_, ?_⟩
      · rw [show (personalAssistantRun env₁ script₁ query).result =
            finishResult (personalAssistantRun env₁ script₁ query).final from hr]
        rfl
      · rcases hl with hl | hl
        · exact Or.inl (by simpa [initialAssistantState] using hl)
        · exact Or.inr hl
  · rcases chatTurnLoop_no_final env₂ script₂ hs₂ max_steps_per_turn
      (initialChatTurnState history message)
      with hb | ⟨he, hl⟩
    · exact Or.inl hb
    · refine Or.inr ⟨he, rfl, ?_⟩
      rcases hl with hl | hl
      · exact Or.inl (by simpa [initialChatTurnState] using hl)
      · exact Or.inr hl

/-- Witness for the amended C4: a script that always returns a
non-final output exhausts the budget and yields the fixed fallback
string. -/
theorem C4_budget_exhaustion_fallback_witness :
    ((personalAssistantRun trivialEnv silentScript (lit "hi")).exit = some .breaker ∨
     ((personalAssistantRun trivialEnv silentScript (lit "hi")).exit = none ∧
      (personalAssistantRun trivialEnv silentScript (lit "hi")).result.final_response =
        (if (personalAssistantRun trivialEnv silentScript (lit "hi")).final.lastText = []
         then noResponseMsg
         else (personalAssistantRun trivialEnv silentScript (lit "hi")).final.lastText) ∧
      ((personalAssistantRun trivialEnv silentScript (lit "hi")).final.lastText = [] ∨
       ∃ k, (silentScript k).output_text =
         some ((personalAssistantRun trivialEnv silentScript (lit "hi")).final.lastText)))) ∧
    ((runChatTurn trivialEnv silentScript [] (lit "hi")).2 = some .breaker ∨
     ((runChatTurn trivialEnv silentScript [] (lit "hi")).2 = none ∧
      chatTurnFinalText (runChatTurn trivialEnv silentScript [] (lit "hi")).1 =
        (if (runChatTurn trivialEnv silentScript [] (lit "hi")).1.lastText = []
         then noResponseMsg
         else (runChatTurn trivialEnv silentScript [] (lit "hi")).1.lastText) ∧
      ((runChatTurn trivialEnv silentScript [] (lit "hi")).1.lastText = [] ∨
       ∃ k, (silentScript k).output_text =
         some ((runChatTurn trivialEnv silentScript [] (lit "hi")).1.lastText)))) :=
  C4_budget_exhaustion_fallback trivialEnv trivialEnv silentScript silentScript
    (lit "hi") [] (lit "hi") (fun _ => rfl) (fun _ => rfl)

set_option maxRecDepth 10000 in
/-- Counterexample to C4 as stated: when no assistant text is ever
produced and no final signal arrives, the single-shot turn's result is
the fixed non-empty string "The assistant could not produce a
response." — not "an explicit empty result". -/
theorem C4_counterexample :
    (personalAssistantRun trivialEnv silentScript
      (lit "hi")).result.final_response = noResponseMsg ∧
    noResponseMsg ≠ [] := by
  exact ⟨by decide, by decide⟩

/-- The synthesized circuit-breaker message is never empty. -/
theorem synthFinalSummary_ne_nil (w : Str) : synthFinalSummary w ≠ [] := by
  simp [synthFinalSummary, lit]

/-- C5: in any turn state where the weather cache already holds a
successful result and at least two tool calls have been made, a third
requested tool call terminates the turn at once via the tool-budget
circuit breaker: the turn returns the synthesized final message — which
starts with the final-answer marker and contains the cached result —
after exactly this one more iteration, with this call the last tool
call of the turn and no further tool invocations. -/
theorem C5_tool_budget_circuit_breaker (env₁ env₂ : Env)
    (script₁ script₂ : Nat → AgentStepOutput) (fuel₁ fuel₂ : Nat)
    (st : AssistantState) (stc : ChatTurnState) (tc₁ tc₂ : ToolCall) (w₁ w₂ : Str)
    (hw₁ : st.lastWeatherResult = some w₁) (hn₁ : 2 ≤ st.toolCallsThisRequest)
    (h₁ : (script₁ st.steps).tool_call = some tc₁)
    (hw₂ : stc.lastWeatherResult = some w₂) (hn₂ : 2 ≤ stc.toolCallsThisTurn)
    (h₂ : (script₂ stc.stepsThisTurn).tool_call = some tc₂) :
    ((assistantLoop env₁ script₁ (fuel₁ + 1) st).exit = some .breaker ∧
     (assistantLoop env₁ script₁ (fuel₁ + 1) st).result.final_response =
       synthFinalSummary w₁ ∧
     (assistantLoop env₁ script₁ (fuel₁ + 1) st).result.steps = st.steps + 1 ∧
     (assistantLoop env₁ script₁ (fuel₁ + 1) st).result.tool_calls =
       st.toolCalls ++ [tc₁]) ∧
    ((chatTurnLoop env₂ script₂ (fuel₂ + 1) stc).2 = some .breaker ∧
     (chatTurnLoop env₂ script₂ (fuel₂ + 1) stc).1.lastText = synthFinalSummary w₂ ∧
     chatTurnFinalText (chatTurnLoop env₂ script₂ (fuel₂ + 1) stc).1 =
       synthFinalSummary w₂ ∧
     (chatTurnLoop env₂ script₂ (fuel₂ + 1) stc).1.stepsThisTurn =
       stc.stepsThisTurn + 1) ∧
    (lit "FINAL SUMMARY: ").isPrefixOf (synthFinalSummary w₁) = true ∧
    w₁ <:+: synthFinalSummary w₁ := by
  have hne : lit "get_weather" ≠ lit "company_research" := by decide
  have hb₁ : 3 ≤ st.toolCallsThisRequest + 1 := by omega
  have hb₂ : 3 ≤ stc.toolCallsThisTurn + 1 := by omega
  refine ⟨?_, ?_, ?_, ?_⟩
  · by_cases hcr : tc₁.name = lit "company_research"
    · refine ⟨?_, ?_, ?_, ?_⟩ <;>
        simp [assistantLoop, assistantStep, dispatchToolCall, h₁, hw₁, hcr, hb₁]
    · by_cases hgw : tc₁.name = lit "get_weather"
      · refine ⟨?_, ?_, ?_, ?_⟩ <;>
          simp [assistantLoop, assistantStep, dispatchToolCall, h₁, hw₁, hcr, hgw, hb₁, hne]
      · refine ⟨?_, ?_, ?_, ?_⟩ <;>
          simp [assistantLoop, assistantStep, dispatchToolCall, h₁, hw₁, hcr, hgw, hb₁]
  · by_cases hcr : tc₂.name = lit "company_research"
    · refine ⟨?_, ?_, ?_, ?_⟩ <;>
        simp [chatTurnLoop, chatTurnStep, dispatchToolCall, chatTurnFinalText,
          synthFinalSummary_ne_nil, h₂, hw₂, hcr, hb₂]
    · by_cases hgw : tc₂.name = lit "get_weather"
      · refine ⟨?_, ?_, ?_, ?_⟩ <;>
          simp [chatTurnLoop, chatTurnStep, dispatchToolCall, chatTurnFinalText,
            synthFinalSummary_ne_nil, h₂, hw₂, hcr, hgw, hb₂, hne]
      · refine ⟨?_, ?_, ?_, ?_⟩ <;>
          simp [chatTurnLoop, chatTurnStep, dispatchToolCall, chatTurnFinalText,
            synthFinalSummary_ne_nil, h₂, hw₂, hcr, hgw, hb₂]
  · rw [List.isPrefixOf_iff_prefix]
    exact List.prefix_append _ _
  · simp only [synthFinalSummary, List.append_assoc]
    exact List.infix_append' _ _ _

/-- Witness for C5 at a concrete state: two tool calls already made,
a cached successful weather result, and a third weather request. -/
theorem C5_tool_budget_circuit_breaker_witness :
    (assistantLoop weatherEnv weatherScript (0 + 1)
        { history := [], toolCalls := [], steps := 0, lastText := [],
          toolCallsThisRequest := 2, lastWeatherResult := some weatherText,
          executorCalls := [] }).exit = some .breaker ∧
    (assistantLoop weatherEnv weatherScript (0 + 1)
        { history := [], toolCalls := [], steps := 0, lastText := [],
          toolCallsThisRequest := 2, lastWeatherResult := some weatherText,
          executorCalls := [] }).result.final_response = synthFinalSummary weatherText ∧
    (assistantLoop weatherEnv weatherScript (0 + 1)
        { history := [], toolCalls := [], steps := 0, lastText := [],
          toolCallsThisRequest := 2, lastWeatherResult := some weatherText,
          executorCalls := [] }).result.steps =
      ({ history := [], toolCalls := [], steps := 0, lastText := [],
         toolCallsThisRequest := 2, lastWeatherResult := some weatherText,
         executorCalls := [] } : AssistantState).steps + 1 ∧
    (assistantLoop weatherEnv weatherScript (0 + 1)
        { history := [], toolCalls := [], steps := 0, lastText := [],
          toolCallsThisRequest := 2, lastWeatherResult := some weatherText,
          executorCalls := [] }).result.tool_calls =
      ({ history := [], toolCalls := [], steps := 0, lastText := [],
         toolCallsThisRequest := 2, lastWeatherResult := some weatherText,
         executorCalls := [] } : AssistantState).toolCalls ++ [weatherCall] :=
  (C5_tool_budget_circuit_breaker weatherEnv weatherEnv weatherScript weatherScript 0 0
    { history := [], toolCalls := [], steps := 0, lastText := [],
      toolCallsThisRequest := 2, lastWeatherResult := some weatherText,
      executorCalls := [] }
    { history := [], lastText := [], toolCallsThisTurn := 2,
      lastWeatherResult := some weatherText, stepsThisTurn := 0, executorCalls := [] }
    weatherCall weatherCall weatherText weatherText
    rfl (by decide) rfl rfl (by decide) rfl).1

/-- C6: two consecutive identical requests for the guarded
`get_weather` tool within one fresh turn invoke the tool executor at
most once: the first (successful) response populates the cache and the
executor trace, the second reuses the cached result text verbatim —
the same tool-result entry is appended, and the executor trace does
not grow.  Holds for both orchestration loops. -/
theorem C6_repetition_guardrail (env₁ env₂ : Env)
    (script₁ script₂ : Nat → AgentStepOutput)
    (st : AssistantState) (stc : ChatTurnState) (tc₁ tc₂ : ToolCall)
    (hn₁ : tc₁.name = lit "get_weather")
    (hw₁ : st.lastWeatherResult = none)
    (hc₁ : st.toolCallsThisRequest = 0)
    (hm₁ : containsSub (env₁.toolExec tc₁) weatherMarker = true)
    (h₁ : (script₁ st.steps).tool_call = some tc₁)
    (h₁' : (script₁ (st.steps + 1)).tool_call = some tc₁)
    (hn₂ : tc₂.name = lit "get_weather")
    (hw₂ : stc.lastWeatherResult = none)
    (hc₂ : stc.toolCallsThisTurn = 0)
    (hm₂ : containsSub (env₂.toolExec tc₂) weatherMarker = true)
    (h₂ : (script₂ stc.stepsThisTurn).tool_call = some tc₂)
    (h₂' : (script₂ (stc.stepsThisTurn + 1)).tool_call = some tc₂) :
    (∃ st1 st2,
      assistantStep env₁ (script₁ st.steps) st = .cont st1 ∧
      assistantStep env₁ (script₁ st1.steps) st1 = .cont st2 ∧
      st1.executorCalls = st.executorCalls ++ [tc₁] ∧
      st2.executorCalls = st1.executorCalls ∧
      st1.lastWeatherResult = some (env₁.toolExec tc₁) ∧
      st1.history = st.history ++ [toolResultEntry tc₁.name (env₁.toolExec tc₁)] ∧
      st2.history = st1.history ++ [toolResultEntry tc₁.name (env₁.toolExec tc₁)] ∧
      (∀ fuel, assistantLoop env₁ script₁ (fuel + 2) st =
        assistantLoop env₁ script₁ fuel st2)) ∧
    (∃ sc1 sc2,
      chatTurnStep env₂ (script₂ stc.stepsThisTurn) stc = .cont sc1 ∧
      chatTurnStep env₂ (script₂ sc1.stepsThisTurn) sc1 = .cont sc2 ∧
      sc1.executorCalls = stc.executorCalls ++ [tc₂] ∧
      sc2.executorCalls = sc1.executorCalls ∧
      sc1.lastWeatherResult = some (env₂.toolExec tc₂) ∧
      sc1.history = stc.history ++ [toolResultEntry tc₂.name (env₂.toolExec tc₂)] ∧
      sc2.history = sc1.history ++ [toolResultEntry tc₂.name (env₂.toolExec tc₂)] ∧
      (∀ fuel, chatTurnLoop env₂ script₂ (fuel + 2) stc =
        chatTurnLoop env₂ script₂ fuel sc2)) := by
  have hne : lit "get_weather" ≠ lit "company_research" := by decide
  constructor
  · have hne2 : tc₁.name ≠ lit "company_research" := by rw [hn₁]; decide
    have e1 : assistantStep env₁ (script₁ st.steps) st = .cont
        { history := st.history ++ [toolResultEntry tc₁.name (env₁.toolExec tc₁)],
          toolCalls := st.toolCalls ++ [tc₁],
          steps := st.steps + 1,
          lastText := st.lastText,
          toolCallsThisRequest := st.toolCallsThisRequest + 1,
          lastWeatherResult := some (env₁.toolExec tc₁),
          executorCalls := st.executorCalls ++ [tc₁] } := by
      simp [assistantStep, dispatchToolCall, h₁, hw₁, hn₁, hne2, hne, hm₁, hc₁]
    have e2 : assistantStep env₁ (script₁ (st.steps + 1))
        { history := st.history ++ [toolResultEntry tc₁.name (env₁.toolExec tc₁)],
          toolCalls := st.toolCalls ++ [tc₁],
          steps := st.steps + 1,
          lastText := st.lastText,
          toolCallsThisRequest := st.toolCallsThisRequest + 1,
          lastWeatherResult := some (env₁.toolExec tc₁),
          executorCalls := st.executorCalls ++ [tc₁] } = .cont
        { history := (st.history ++ [toolResultEntry tc₁.name (env₁.toolExec tc₁)]) ++
            [toolResultEntry tc₁.name (env₁.toolExec tc₁)],
          toolCalls := (st.toolCalls ++ [tc₁]) ++ [tc₁],
          steps := st.steps + 1 + 1,
          lastText := st.lastText,
          toolCallsThisRequest := st.toolCallsThisRequest + 1 + 1,
          lastWeatherResult := some (env₁.toolExec tc₁),
          executorCalls := st.executorCalls ++ [tc₁] } := by
      simp [assistantStep, dispatchToolCall, h₁', hn₁, hne2, hne, hc₁]
    refine ⟨_, _, e1, e2, rfl, rfl, rfl, rfl, rfl, ?_⟩
    intro fuel
    simp only [assistantLoop, e1]
    simp only [assistantLoop, e2]
  · have hne2 : tc₂.name ≠ lit "company_research" := by rw [hn₂]; decide
    have e1 : chatTurnStep env₂ (script₂ stc.stepsThisTurn) stc = .cont
        { history := stc.history ++ [toolResultEntry tc₂.name (env₂.toolExec tc₂)],
          lastText := stc.lastText,
          toolCallsThisTurn := stc.toolCallsThisTurn + 1,
          lastWeatherResult := some (env₂.toolExec tc₂),
          stepsThisTurn := stc.stepsThisTurn + 1,
          executorCalls := stc.executorCalls ++ [tc₂] } := by
      simp [chatTurnStep, dispatchToolCall, h₂, hw₂, hn₂, hne2, hne, hm₂, hc₂]
    have e2 : chatTurnStep env₂ (script₂ (stc.stepsThisTurn + 1))
        { history := stc.history ++ [toolResultEntry tc₂.name (env₂.toolExec tc₂)],
          lastText := stc.lastText,
          toolCallsThisTurn := stc.toolCallsThisTurn + 1,
          lastWeatherResult := some (env₂.toolExec tc₂),
          stepsThisTurn := stc.stepsThisTurn + 1,
          executorCalls := stc.executorCalls ++ [tc₂] } = .cont
        { history := (stc.history ++ [toolResultEntry tc₂.name (env₂.toolExec tc₂)]) ++
            [toolResultEntry tc₂.name (env₂.toolExec tc₂)],
          lastText := stc.lastText,
          toolCallsThisTurn := stc.toolCallsThisTurn + 1 + 1,
          lastWeatherResult := some (env₂.toolExec tc₂),
          stepsThisTurn := stc.stepsThisTurn + 1 + 1,
          executorCalls := stc.executorCalls ++ [tc₂] } := by
      simp [chatTurnStep, dispatchToolCall, h₂', hn₂, hne2, hne, hc₂]
    refine ⟨_, _, e1, e2, rfl, rfl, rfl, rfl, rfl, ?_⟩
    intro fuel
    simp only [chatTurnLoop, e1]
    simp only [chatTurnLoop, e2]

/-- Witness for C6 at a concrete fresh turn and a repeated concrete
weather request. -/
theorem C6_repetition_guardrail_witness :
    (∃ st1 st2,
      assistantStep weatherEnv (weatherScript (initialAssistantState (lit "hi")).steps) (initialAssistantState (lit "hi")) = .cont st1 ∧
      assistantStep weatherEnv (weatherScript st1.steps) st1 = .cont st2 ∧
      st1.executorCalls = (initialAssistantState (lit "hi")).executorCalls ++ [weatherCall] ∧
      st2.executorCalls = st1.executorCalls ∧
      st1.lastWeatherResult = some (weatherEnv.toolExec weatherCall) ∧
      st1.history = (initialAssistantState (lit "hi")).history ++
        [toolResultEntry weatherCall.name (weatherEnv.toolExec weatherCall)] ∧
      st2.history = st1.history ++
        [toolResultEntry weatherCall.name (weatherEnv.toolExec weatherCall)] ∧
      (∀ fuel, assistantLoop weatherEnv weatherScript (fuel + 2) (initialAssistantState (lit "hi")) =
        assistantLoop weatherEnv weatherScript fuel st2)) ∧
    (∃ sc1 sc2,
      chatTurnStep weatherEnv (weatherScript (initialChatTurnState [] (lit "hi")).stepsThisTurn) (initialChatTurnState [] (lit "hi")) = .cont sc1 ∧
      chatTurnStep weatherEnv (weatherScript sc1.stepsThisTurn) sc1 = .cont sc2 ∧
      sc1.executorCalls = (initialChatTurnState [] (lit "hi")).executorCalls ++ [weatherCall] ∧
      sc2.executorCalls = sc1.executorCalls ∧
      sc1.lastWeatherResult = some (weatherEnv.toolExec weatherCall) ∧
      sc1.history = (initialChatTurnState [] (lit "hi")).history ++
        [toolResultEntry weatherCall.name (weatherEnv.toolExec weatherCall)] ∧
      sc2.history = sc1.history ++
        [toolResultEntry weatherCall.name (weatherEnv.toolExec weatherCall)] ∧
      (∀ fuel, chatTurnLoop weatherEnv weatherScript (fuel + 2) (initialChatTurnState [] (lit "hi")) =
        chatTurnLoop weatherEnv weatherScript fuel sc2)) :=
  C6_repetition_guardrail weatherEnv weatherEnv weatherScript weatherScript
    (initialAssistantState (lit "hi")) (initialChatTurnState [] (lit "hi")) weatherCall weatherCall
    rfl rfl rfl (by decide) rfl rfl
    rfl rfl rfl (by decide) rfl rfl

/-- Once the weather cache is populated, the rest of a single-shot run
keeps it unchanged and never again invokes the tool executor on a
`get_weather` call. -/
theorem assistantLoop_cache_executor (env : Env) (script : Nat → AgentStepOutput) :
    ∀ (fuel : Nat) (st : AssistantState) (w : Str), st.lastWeatherResult = some w →
      (assistantLoop env script fuel st).final.lastWeatherResult = some w ∧
      ∃ new, (assistantLoop env script fuel st).final.executorCalls =
        st.executorCalls ++ new ∧ ∀ c ∈ new, c.name ≠ lit "get_weather" := by
  intro fuel
  induction fuel with
  | zero => intro st w hw; exact ⟨hw, [], by simp [assistantLoop], by simp⟩
  | succ n ih =>
      intro st w hw
      cases h : assistantStep env (script st.steps) st with
      | cont st' =>
          have hp := @assistantStep_cache_preserved env (script st.steps) st w hw
          rw [h] at hp
          simp only [StepOut.state] at hp
          obtain ⟨hw1, new1, he1, hn1⟩ := hp
          obtain ⟨hw2, new2, he2, hn2⟩ := ih st' w hw1
          simp only [assistantLoop, h]
          refine ⟨hw2, new1 ++ new2, ?_, ?_⟩
          · rw [he2, he1, List.append_assoc]
          · intro c hc
            rcases List.mem_append.mp hc with hc | hc
            · exact hn1 c hc
            · exact hn2 c hc
      | halt st' res why =>
          have hp := @assistantStep_cache_preserved env (script st.steps) st w hw
          rw [h] at hp
          simp only [StepOut.state] at hp
          obtain ⟨hw1, new1, he1, hn1⟩ := hp
          simp only [assistantLoop, h]
          exact ⟨hw1, new1, he1, hn1⟩

/-- Chat analog of `assistantLoop_cache_executor`. -/
theorem chatTurnLoop_cache_executor (env : Env) (script : Nat → AgentStepOutput) :
    ∀ (fuel : Nat) (st : ChatTurnState) (w : Str), st.lastWeatherResult = some w →
      (chatTurnLoop env script fuel st).1.lastWeatherResult = some w ∧
      ∃ new, (chatTurnLoop env script fuel st).1.executorCalls =
        st.executorCalls ++ new ∧ ∀ c ∈ new, c.name ≠ lit "get_weather" := by
  intro fuel
  induction fuel with
  | zero => intro st w hw; exact ⟨hw, [], by simp [chatTurnLoop], by simp⟩
  | succ n ih =>
      intro st w hw
      cases h : chatTurnStep env (script st.stepsThisTurn) st with
      | cont st' =>
          have hp := @chatTurnStep_cache_preserved env (script st.stepsThisTurn) st w hw
          rw [h] at hp
          simp only [ChatStepOut.state] at hp
          obtain ⟨hw1, new1, he1, hn1⟩ := hp
          obtain ⟨hw2, new2, he2, hn2⟩ := ih st' w hw1
          simp only [chatTurnLoop, h]
          refine ⟨hw2, new1 ++ new2, ?_, ?_⟩
          · rw [he2, he1, List.append_assoc]
          · intro c hc
            rcases List.mem_append.mp hc with hc | hc
            · exact hn1 c hc
            · exact hn2 c hc
      | halt st' why =>
          have hp := @chatTurnStep_cache_preserved env (script st.stepsThisTurn) st w hw
          rw [h] at hp
          simp only [ChatStepOut.state] at hp
          obtain ⟨hw1, new1, he1, hn1⟩ := hp
          simp only [chatTurnLoop, h]
          exact ⟨hw1, new1, he1, hn1⟩

/-- C9: within a turn, once a successful weather result `w` is cached,
every subsequent `get_weather` tool call — with any arguments — is
answered with `w` verbatim: the dispatch returns the cached text
untouched, the iteration appends the cached text to the history without
touching the executor trace, and for the remainder of the turn (in
either loop) the tool executor is never again invoked on a
`get_weather` call. -/
theorem C9_weather_cache_answers_all_later_calls (env₁ env₂ : Env)
    (ec : List ToolCall) (r₁ r₂ : AgentStepOutput) (tc : ToolCall) (w : Str)
    (script₁ script₂ : Nat → AgentStepOutput) (fuel₁ fuel₂ : Nat)
    (st : AssistantState) (stc : ChatTurnState)
    (hn : tc.name = lit "get_weather")
    (hw₁ : st.lastWeatherResult = some w) (hw₂ : stc.lastWeatherResult = some w)
    (hr₁ : r₁.tool_call = some tc) (hr₂ : r₂.tool_call = some tc) :
    dispatchToolCall env₁ tc (some w) ec = (w, some w, ec) ∧
    ((assistantStep env₁ r₁ st).state.history =
        st.history ++ [toolResultEntry tc.name w] ∧
     (assistantStep env₁ r₁ st).state.executorCalls = st.executorCalls) ∧
    ((chatTurnStep env₂ r₂ stc).state.history =
        stc.history ++ [toolResultEntry tc.name w] ∧
     (chatTurnStep env₂ r₂ stc).state.executorCalls = stc.executorCalls) ∧
    (∃ new, (assistantLoop env₁ script₁ fuel₁ st).final.executorCalls =
      st.executorCalls ++ new ∧ ∀ c ∈ new, c.name ≠ lit "get_weather") ∧
    (∃ new, (chatTurnLoop env₂ script₂ fuel₂ stc).1.executorCalls =
      stc.executorCalls ++ new ∧ ∀ c ∈ new, c.name ≠ lit "get_weather") := by
  have hne : lit "get_weather" ≠ lit "company_research" := by decide
  have hne2 : tc.name ≠ lit "company_research" := by rw [hn]; decide
  refine ⟨?_, ⟨?_, ?_⟩, ⟨?_, ?_⟩, ?_, ?_⟩
  · simp [dispatchToolCall, hn, hne]
  · by_cases hb : 3 ≤ st.toolCallsThisRequest + 1 <;>
      simp [assistantStep, StepOut.state, dispatchToolCall, hr₁, hn, hne, hne2, hw₁, hb]
  · by_cases hb : 3 ≤ st.toolCallsThisRequest + 1 <;>
      simp [assistantStep, StepOut.state, dispatchToolCall, hr₁, hn, hne, hne2, hw₁, hb]
  · by_cases hb : 3 ≤ stc.toolCallsThisTurn + 1 <;>
      simp [chatTurnStep, ChatStepOut.state, dispatchToolCall, hr₂, hn, hne, hne2, hw₂, hb]
  · by_cases hb : 3 ≤ stc.toolCallsThisTurn + 1 <;>
      simp [chatTurnStep, ChatStepOut.state, dispatchToolCall, hr₂, hn, hne, hne2, hw₂, hb]
  · exact (assistantLoop_cache_executor env₁ script₁ fuel₁ st w hw₁).2
  · exact (chatTurnLoop_cache_executor env₂ script₂ fuel₂ stc w hw₂).2

/-- Witness for C9: the cached text "sunny" answers a later weather
call verbatim even though the executor would have returned a different
string, and no later executor call in the turn is a weather call. -/
theorem C9_weather_cache_answers_all_later_calls_witness :
    dispatchToolCall weatherEnv weatherCall (some (lit "sunny")) [] =
      (lit "sunny", some (lit "sunny"), []) ∧
    ((assistantStep weatherEnv (weatherScript 0)
        ({ history := [], toolCalls := [], steps := 0, lastText := [], toolCallsThisRequest := 0, lastWeatherResult := some (lit "sunny"), executorCalls := [] } : AssistantState)).state.history =
        ({ history := [], toolCalls := [], steps := 0, lastText := [], toolCallsThisRequest := 0, lastWeatherResult := some (lit "sunny"), executorCalls := [] } : AssistantState).history ++
          [toolResultEntry weatherCall.name (lit "sunny")] ∧
     (assistantStep weatherEnv (weatherScript 0)
        ({ history := [], toolCalls := [], steps := 0, lastText := [], toolCallsThisRequest := 0, lastWeatherResult := some (lit "sunny"), executorCalls := [] } : AssistantState)).state.executorCalls =
        ({ history := [], toolCalls := [], steps := 0, lastText := [], toolCallsThisRequest := 0, lastWeatherResult := some (lit "sunny"), executorCalls := [] } : AssistantState).executorCalls) ∧
    ((chatTurnStep weatherEnv (weatherScript 0)
        ({ history := [], lastText := [], toolCallsThisTurn := 0, lastWeatherResult := some (lit "sunny"), stepsThisTurn := 0, executorCalls := [] } : ChatTurnState)).state.history =
        ({ history := [], lastText := [], toolCallsThisTurn := 0, lastWeatherResult := some (lit "sunny"), stepsThisTurn := 0, executorCalls := [] } : ChatTurnState).history ++
          [toolResultEntry weatherCall.name (lit "sunny")] ∧
     (chatTurnStep weatherEnv (weatherScript 0)
        ({ history := [], lastText := [], toolCallsThisTurn := 0, lastWeatherResult := some (lit "sunny"), stepsThisTurn := 0, executorCalls := [] } : ChatTurnState)).state.executorCalls =
        ({ history := [], lastText := [], toolCallsThisTurn := 0, lastWeatherResult := some (lit "sunny"), stepsThisTurn := 0, executorCalls := [] } : ChatTurnState).executorCalls) ∧
    (∃ new, (assistantLoop weatherEnv weatherScript 8
        ({ history := [], toolCalls := [], steps := 0, lastText := [], toolCallsThisRequest := 0, lastWeatherResult := some (lit "sunny"), executorCalls := [] } : AssistantState)).final.executorCalls =
      ({ history := [], toolCalls := [], steps := 0, lastText := [], toolCallsThisRequest := 0, lastWeatherResult := some (lit "sunny"), executorCalls := [] } : AssistantState).executorCalls ++ new ∧
      ∀ c ∈ new, c.name ≠ lit "get_weather") ∧
    (∃ new, (chatTurnLoop weatherEnv weatherScript 8
        ({ history := [], lastText := [], toolCallsThisTurn := 0, lastWeatherResult := some (lit "sunny"), stepsThisTurn := 0, executorCalls := [] } : ChatTurnState)).1.executorCalls =
      ({ history := [], lastText := [], toolCallsThisTurn := 0, lastWeatherResult := some (lit "sunny"), stepsThisTurn := 0, executorCalls := [] } : ChatTurnState).executorCalls ++ new ∧
      ∀ c ∈ new, c.name ≠ lit "get_weather") :=
  C9_weather_cache_answers_all_later_calls weatherEnv weatherEnv []
    (weatherScript 0) (weatherScript 0) weatherCall (lit "sunny")
    weatherScript weatherScript 8 8
    ({ history := [], toolCalls := [], steps := 0, lastText := [], toolCallsThisRequest := 0, lastWeatherResult := some (lit "sunny"), executorCalls := [] }) ({ history := [], lastText := [], toolCallsThisTurn := 0, lastWeatherResult := some (lit "sunny"), stepsThisTurn := 0, executorCalls := [] })
    rfl rfl rfl rfl rfl

/-- The session loop publishes one response per pending message, with
turn indices counting up from just above the session's current
`_turn_index`. -/
theorem chatSessionUpdates_turn_indices (env : Env)
    (scripts : Nat → Nat → AgentStepOutput) :
    ∀ (messages : List ChatMessage) (history : List PromptEntry) (turn_index : Nat),
      (chatSessionUpdates env scripts messages history turn_index).map
        (fun r => r.turn_index) =
      List.range' (turn_index + 1) messages.length := by
  intro messages
  induction messages with
  | nil => intro history turn_index; simp [chatSessionUpdates]
  | cons m rest ih =>
      intro history turn_index
      simp only [chatSessionUpdates, List.map_cons, List.length_cons, List.range'_succ]
      exact congrArg (List.cons (turn_index + 1)) (ih _ _)

/-- C8: over a no-close interactive session, pending messages are
consumed strictly in FIFO submission order, one full turn at a time;
`latest_response` is updated exactly once per consumed message (the
update list has one entry per message, in order), and its `turn_index`
values are exactly `1, 2, ...` — strictly increasing, so turn `1`'s
update precedes turn `2`'s. -/
theorem C8_fifo_turn_indices (env : Env) (scripts : Nat → Nat → AgentStepOutput)
    (config : ChatSessionConfig) (messages : List ChatMessage) :
    (chatPersonalAssistantSession env scripts config messages).map
      (fun r => r.turn_index) = List.range' 1 messages.length ∧
    (chatPersonalAssistantSession env scripts config messages).length =
      messages.length ∧
    ((chatPersonalAssistantSession env scripts config messages).map
      (fun r => r.turn_index)).Pairwise (· < ·) := by
  have h := chatSessionUpdates_turn_indices env scripts messages
    (initialChatHistory config) 0
  refine ⟨h, ?_, ?_⟩
  · have := congrArg List.length h
    simpa [chatPersonalAssistantSession] using this
  · rw [show (chatPersonalAssistantSession env scripts config messages).map
        (fun r => r.turn_index) = List.range' 1 messages.length from h]
    exact List.pairwise_lt_range' 1 messages.length

/-- Witness for C7: a delegation request with no company argument
yields the descriptive failure string. -/
theorem C7_subagent_summary_bounded_witness :
    run_company_research_subagent trivialEnv.research
      { name := lit "company_research", arguments := [] } = missingCompanyMsg :=
  (C7_subagent_summary_bounded trivialEnv.research
    { name := lit "company_research", arguments := [] }).1 (by decide)

/-- Witness for C10: a tool-call response normalizes to a non-final
output with no text. -/
theorem C10_llm_step_normalization_invariant_witness :
    (llm_step_gemini (GeminiResponse.funcCall (lit "get_weather") [])).is_final = false ∧
    (llm_step_gemini (GeminiResponse.funcCall (lit "get_weather") [])).output_text = none :=
  (C10_llm_step_normalization_invariant
    (GeminiResponse.funcCall (lit "get_weather") [])
    (OpenAIResponse.text none)).1 (by simp [llm_step_gemini])

end SupervisorAgent
